import Mathlib

/-!
Verification of the core of the `livingrental-alert` VPS control-plane:
a shallow embedding, in Lean, of the preflight/placement planner
(`src/server/vps/preflight.ts`) and of the deployment executor and health
prober (`src/server/vps/deploy.ts`), together with theorems settling the
frozen specification claims.

Modelling conventions:
* TypeScript strings are modelled either as Lean `String` or, where
  character-level parsing and substring counting matter, as `List Char`.
* JavaScript `Array.prototype.includes` on numbers is `List.contains`;
  `String.prototype.includes` is the `containsSub`/`includes` functions
  defined below (substring containment).
* The remote host is modelled by an oracle structure (`DeployEnv`) giving
  each remote operation's channel-level outcome, plus an association-list
  file system (`RemoteFS`) recording uploads symbolically.
-/

set_option maxRecDepth 8000

namespace LivingRental

/-! ## String utilities (List Char model of JS strings) -/

/-- Substring containment on character lists: `containsSub s pat` is true iff
`pat` occurs contiguously inside `s`.  This is the model of JavaScript's
`String.prototype.includes`. -/
def containsSub : List Char → List Char → Bool
  | [], pat => pat.isEmpty
  | c :: s, pat => pat.isPrefixOf (c :: s) || containsSub s pat

/-- JS `s.includes(sub)` on the `String` view. -/
def includes (s sub : String) : Bool := containsSub s.data sub.data

/-- Number of occurrences (possibly overlapping) of the pattern `p` in `s`:
one test at every suffix start. -/
def countSubstr (p : List Char) : List Char → Nat
  | [] => 0
  | c :: s => (if p.isPrefixOf (c :: s) then 1 else 0) + countSubstr p s

/-- Decimal digit character for a value below ten. -/
def digitChar (d : Nat) : Char := Char.ofNat (48 + d)

/-- Fuel-driven digit expansion: with fuel at least the digit count, renders
`n` in decimal. -/
def natCharsAux : Nat → Nat → List Char
  | 0, _ => []
  | fuel + 1, n =>
    if n < 10 then [digitChar n]
    else natCharsAux fuel (n / 10) ++ [digitChar (n % 10)]

/-- Decimal rendering of a natural number as characters; models the
stringification a TypeScript template literal applies to a number
(`n + 1` units of fuel always suffice since `n / 10 < n`). -/
def natChars (n : Nat) : List Char := natCharsAux (n + 1) n

/-- String view of `natChars`. -/
def natToString (n : Nat) : String := String.mk (natChars n)

/-- JS whitespace test for the parser (`\s`). -/
def isWs (c : Char) : Bool := c.isWhitespace

/-- Model of JS `String.prototype.trim`: strip leading and trailing
whitespace. -/
def trimChars (s : List Char) : List Char :=
  ((s.dropWhile isWs).reverse.dropWhile isWs).reverse

/-- Model of JS `split("\n")`: always at least one piece; a trailing newline
yields a trailing empty piece. -/
def splitOnNl : List Char → List (List Char)
  | [] => [[]]
  | c :: rest =>
    if c = '\n' then [] :: splitOnNl rest
    else
      match splitOnNl rest with
      | [] => [[c]]
      | h :: t => (c :: h) :: t

/-- Accumulator loop for whitespace splitting: gathers the current word in
reverse in `acc`. -/
def wordsAux : List Char → List Char → List (List Char)
  | [], acc => if acc.isEmpty then [] else [acc.reverse]
  | c :: rest, acc =>
    if isWs c then
      if acc.isEmpty then wordsAux rest []
      else acc.reverse :: wordsAux rest []
    else wordsAux rest (c :: acc)

/-- Model of JS `split(/\s+/)` applied to an already-trimmed line: the list
of maximal nonempty runs of non-whitespace characters.  (On the empty string
JS returns `[""]` while this returns `[]`; both fall below the parser's
four-field threshold, so the difference is unobservable in
`parseListeningPorts`.) -/
def splitWs (s : List Char) : List (List Char) := wordsAux s []

/-- JS `a || b` on strings, where the empty string is falsy. -/
def jsOr (a b : List Char) : List Char := if a.isEmpty then b else a

/-- JS `String.prototype.trim` on the `String` view. -/
def jsTrim (s : String) : String := String.mk (trimChars s.data)

/-- Model of the regex match `/:(\d+)$/`: the maximal nonempty trailing run
of digits, provided it is preceded by a colon. -/
def portDigits (s : List Char) : Option (List Char) :=
  let rev := s.reverse
  let ds := rev.takeWhile Char.isDigit
  if ds.isEmpty then none
  else
    match rev.drop ds.length with
    | ':' :: _ => some ds.reverse
    | _ => none

/-- JS `parseInt` on a nonempty string of decimal digits. -/
def digitsToNat (ds : List Char) : Nat :=
  ds.foldl (fun a c => a * 10 + (c.toNat - 48)) 0

/-! ## Fact model and Placement Planner (preflight.ts) -/

/-- One row of the listening-ports table in `HostFacts.ports`
(preflight.ts `parseListeningPorts` result entries). -/
structure PortEntry where
  port : Nat
  protocol : List Char
  process : List Char
  state : List Char
deriving Repr, DecidableEq

/-- Body of the per-line loop of `parseListeningPorts` (preflight.ts lines
197-212): split the trimmed line on whitespace, require at least four
fields, take the local-address field (`parts[3] || parts[4]`), and accept it
only when it ends in `:digits`. -/
def parseLine (line : List Char) : Option PortEntry :=
  let parts := splitWs (trimChars line)
  if parts.length ≥ 4 then
    let localAddr := jsOr (parts.getD 3 []) (parts.getD 4 [])
    if localAddr.isEmpty then none
    else
      match portDigits localAddr with
      | some ds =>
        some { port := digitsToNat ds
               protocol := jsOr (parts.getD 0 []) "tcp".data
               process := jsOr (parts.getD (parts.length - 1) []) "unknown".data
               state := "LISTEN".data }
      | none => none
  else none

/-- The `ports.push` loop of `parseListeningPorts`, with the accumulated
entry list made explicit. -/
def parsePortsGo (acc : List PortEntry) : List (List Char) → List PortEntry
  | [] => acc
  | line :: rest =>
    match parseLine line with
    | some e => parsePortsGo (acc ++ [e]) rest
    | none => parsePortsGo acc rest

/-- Embedding of `parseListeningPorts` (preflight.ts lines 193-216): trim the
raw command output, split into lines, skip the header line, and run the
per-line loop. -/
def parseListeningPorts (raw : List Char) : List PortEntry :=
  parsePortsGo [] ((splitOnNl (trimChars raw)).drop 1)

/-- Specification-side well-formedness of a ports-table line, written from
the claim's words: at least four whitespace-separated fields, and the
local-address (fourth) field ends in `:digits`. -/
def wellFormedLine (line : List Char) : Bool :=
  let parts := splitWs (trimChars line)
  decide (parts.length ≥ 4) && (portDigits (parts.getD 3 [])).isSome

/-- Linear probe loop of `findSafePort`: starting at `start`, try `fuel`
consecutive candidate ports, returning the first one absent from
`usedPorts`.  Models the `for (let p = preferred + 1; p < preferred + 100; p++)`
loop. -/
def findFreePort : Nat → Nat → List Nat → Option Nat
  | _, 0, _ => none
  | start, fuel + 1, usedPorts =>
    if usedPorts.contains start then findFreePort (start + 1) fuel usedPorts
    else some start

/-- Embedding of `findSafePort` (preflight.ts lines 218-224): the preferred
port if free, otherwise the first free port among
`preferred+1 .. preferred+99`, otherwise `preferred + 1000`. -/
def findSafePort (preferred : Nat) (usedPorts : List Nat) : Nat :=
  if usedPorts.contains preferred then
    match findFreePort (preferred + 1) 99 usedPorts with
    | some p => p
    | none => preferred + 1000
  else preferred

/-- Specification-side restatement of the port-assignment rule, written from
the spec's words: the preferred port when it is not used, otherwise the
first (head of the increasing-range filter) free port in
`preferred+1 .. preferred+99`, otherwise the `preferred + 1000` fallback. -/
def findSafePortSpec (preferred : Nat) (usedPorts : List Nat) : Nat :=
  if usedPorts.contains preferred then
    (((List.range' (preferred + 1) 99).filter
        (fun q => !usedPorts.contains q)).head?).getD (preferred + 1000)
  else preferred

/-- Port assignment computed by `runPreflightScan` (preflight.ts lines
123-129); also the `plan.portsToUse` record consumed by the deployment
executor. -/
structure SafePorts where
  postgres : Nat
  n8n : Nat
  ntfy : Nat
  fetcher : Nat
deriving Repr, DecidableEq

/-- The `safePorts` computation of `runPreflightScan`: one `findSafePort`
call per managed service with the fixed preferred-port table. -/
def computeSafePorts (usedPorts : List Nat) : SafePorts :=
  { postgres := findSafePort 5432 usedPorts
    n8n := findSafePort 5678 usedPorts
    ntfy := findSafePort 8080 usedPorts
    fetcher := findSafePort 3001 usedPorts }

/-- The `usedPorts` projection of `runPreflightScan` (line 123):
`ports.map((p) => p.port)`. -/
def usedPortsOf (ports : List PortEntry) : List Nat := ports.map (fun p => p.port)

/-- Port plan derived from the scanned port table, as `runPreflightScan`
derives it. -/
def planPortsFor (ports : List PortEntry) : SafePorts :=
  computeSafePorts (usedPortsOf ports)

/-- Concrete scanned port table on which the unconditional
disjointness claim fails: ports 5432-5531 are all busy and the fallback
port 6432 is busy as well. -/
def c1Ports : List PortEntry :=
  (List.range' 5432 100 ++ [6432]).map
    (fun p => { port := p, protocol := "tcp".data, process := "sshd".data,
                state := "LISTEN".data })

/-! ## Proxy Config Synthesizer: `generateNginxConfig` (preflight.ts lines
226-294).  The template is reproduced verbatim, split at the five positions
where a port number is interpolated. -/

def nginxSeg0 : List Char :=
  "# LivingRental Alert - Nginx reverse proxy configuration\n".data ++
  "# Add this to /etc/nginx/sites-available/rentalmonitor.conf\n".data ++
  "# Then: sudo ln -s /etc/nginx/sites-available/rentalmonitor.conf /etc/nginx/sites-enabled/\n".data ++
  "# And: sudo nginx -t && sudo systemctl reload nginx\n".data ++
  "\n".data ++
  "# Main rental alert app - rentalert.sellsiren.com\n".data ++
  "server \x7b\n".data ++
  "    listen 80;\n".data ++
  "    server_name rentalert.sellsiren.com;\n".data ++
  "\n".data ++
  "    # n8n workflow automation\n".data ++
  "    location /n8n/ \x7b\n".data ++
  "        proxy_pass http://127.0.0.1:".data

def nginxSeg1 : List Char :=
  "/;\n".data ++
  "        proxy_http_version 1.1;\n".data ++
  "        proxy_set_header Upgrade $http_upgrade;\n".data ++
  "        proxy_set_header Connection \"upgrade\";\n".data ++
  "        proxy_set_header Host $host;\n".data ++
  "        proxy_set_header X-Real-IP $remote_addr;\n".data ++
  "        proxy_set_header X-Forwarded-For $proxy_add_x_forwarded_for;\n".data ++
  "        proxy_set_header X-Forwarded-Proto $scheme;\n".data ++
  "    \x7d\n".data ++
  "\n".data ++
  "    # ntfy push notifications\n".data ++
  "    location /ntfy/ \x7b\n".data ++
  "        proxy_pass http://127.0.0.1:".data

def nginxSeg2 : List Char :=
  "/;\n".data ++
  "        proxy_http_version 1.1;\n".data ++
  "        proxy_set_header Upgrade $http_upgrade;\n".data ++
  "        proxy_set_header Connection \"upgrade\";\n".data ++
  "        proxy_set_header Host $host;\n".data ++
  "        proxy_set_header X-Real-IP $remote_addr;\n".data ++
  "    \x7d\n".data ++
  "\n".data ++
  "    # Fetcher microservice (protect with secret header)\n".data ++
  "    location /fetcher/ \x7b\n".data ++
  "        proxy_pass http://127.0.0.1:".data

def nginxSeg3 : List Char :=
  "/;\n".data ++
  "        proxy_set_header Host $host;\n".data ++
  "        proxy_set_header X-Real-IP $remote_addr;\n".data ++
  "    \x7d\n".data ++
  "\x7d\n".data ++
  "\n".data ++
  "# Alternative: Subdomain configuration (requires DNS A records for each subdomain)\n".data ++
  "# n8n.sellsiren.com, ntfy.sellsiren.com, fetcher.sellsiren.com\n".data ++
  "\n".data ++
  "# server \x7b\n".data ++
  "#     listen 80;\n".data ++
  "#     server_name n8n.sellsiren.com;\n".data ++
  "#     location / \x7b\n".data ++
  "#         proxy_pass http://127.0.0.1:".data

def nginxSeg4 : List Char :=
  ";\n".data ++
  "#         proxy_http_version 1.1;\n".data ++
  "#         proxy_set_header Upgrade $http_upgrade;\n".data ++
  "#         proxy_set_header Connection \"upgrade\";\n".data ++
  "#         proxy_set_header Host $host;\n".data ++
  "#     \x7d\n".data ++
  "# \x7d\n".data ++
  "\n".data ++
  "# server \x7b\n".data ++
  "#     listen 80;\n".data ++
  "#     server_name ntfy.sellsiren.com;\n".data ++
  "#     location / \x7b\n".data ++
  "#         proxy_pass http://127.0.0.1:".data

def nginxSeg5 : List Char :=
  ";\n".data ++
  "#         proxy_http_version 1.1;\n".data ++
  "#         proxy_set_header Upgrade $http_upgrade;\n".data ++
  "#         proxy_set_header Connection \"upgrade\";\n".data ++
  "#         proxy_set_header Host $host;\n".data ++
  "#     \x7d\n".data ++
  "# \x7d\n".data

/-- Embedding of `generateNginxConfig`: the nginx reverse-proxy template with
the three proxied service ports interpolated (n8n, ntfy, fetcher in the
active server block, then n8n and ntfy again in the commented-out subdomain
alternative). -/
def generateNginxConfig (ports : SafePorts) : String :=
  String.mk (nginxSeg0 ++ (natChars ports.n8n ++ (nginxSeg1 ++ (natChars ports.ntfy ++
    (nginxSeg2 ++ (natChars ports.fetcher ++ (nginxSeg3 ++ (natChars ports.n8n ++
    (nginxSeg4 ++ (natChars ports.ntfy ++ nginxSeg5))))))))))

/-- The pattern `proxy_pass` as characters. -/
def proxyPassPat : List Char := "proxy_pass".data

/-- The pattern `reverse_proxy` as characters. -/
def reverseProxyPat : List Char := "reverse_proxy".data

/-! ## Deployment Executor and Health Prober (deploy.ts) -/

/-- Per-service status record in a `DeployResult` (deploy.ts `DeployResult`
interface; the postgres entry has no `url` field, modelled as `none`). -/
structure ServiceStatus where
  running : Bool
  healthy : Bool
  url : Option String
deriving Repr, DecidableEq

/-- The four managed services' status records. -/
structure Services where
  postgres : ServiceStatus
  n8n : ServiceStatus
  ntfy : ServiceStatus
  fetcher : ServiceStatus
deriving Repr, DecidableEq

/-- Result of one deployment attempt (deploy.ts `DeployResult`). -/
structure DeployResult where
  success : Bool
  message : String
  logs : List String
  services : Services
deriving Repr, DecidableEq

/-- Outputs of the four health-probe commands, as returned by the remote
command channel (after the shell-level `|| echo 'failed'` fallbacks). -/
structure HealthOutputs where
  fetcherHealth : String
  ntfyHealth : String
  n8nHealth : String
  postgresCheck : String
deriving Repr, DecidableEq

/-- The health-summary computation inside `deployToVPS` (deploy.ts lines
437-463): per-service running/healthy flags from the probe outputs, with
the loopback URL for the three HTTP services. -/
def deployHealthSummary (h : HealthOutputs) (ports : SafePorts) : Services :=
  let fetcherRunning := includes h.fetcherHealth "ok"
  let ntfyRunning := includes h.ntfyHealth "healthy" || !includes h.ntfyHealth "failed"
  let n8nRunning := !includes h.n8nHealth "failed"
  let postgresRunning := includes h.postgresCheck "accepting connections"
  { postgres := { running := postgresRunning, healthy := postgresRunning, url := none }
    n8n := { running := n8nRunning, healthy := n8nRunning,
             url := some ("http://127.0.0.1:" ++ natToString ports.n8n) }
    ntfy := { running := ntfyRunning, healthy := ntfyRunning,
              url := some ("http://127.0.0.1:" ++ natToString ports.ntfy) }
    fetcher := { running := fetcherRunning, healthy := fetcherRunning,
                 url := some ("http://127.0.0.1:" ++ natToString ports.fetcher) } }

/-- The standalone health prober `checkVPSServices` (deploy.ts lines
538-573), modelled as a function of the same four probe outputs it obtains
over the remote channel: per-service running/healthy flags and URLs
(deploy.ts lines 546-568). -/
def checkVPSServices (h : HealthOutputs) (ports : SafePorts) : Services :=
  let fetcherRunning := includes h.fetcherHealth "ok"
  let ntfyRunning := includes h.ntfyHealth "healthy" || !includes h.ntfyHealth "failed"
  let n8nRunning := !includes h.n8nHealth "failed"
  let postgresRunning := includes h.postgresCheck "accepting connections"
  { postgres := { running := postgresRunning, healthy := postgresRunning, url := none }
    n8n := { running := n8nRunning, healthy := n8nRunning,
             url := some ("http://127.0.0.1:" ++ natToString ports.n8n) }
    ntfy := { running := ntfyRunning, healthy := ntfyRunning,
              url := some ("http://127.0.0.1:" ++ natToString ports.ntfy) }
    fetcher := { running := fetcherRunning, healthy := fetcherRunning,
                 url := some ("http://127.0.0.1:" ++ natToString ports.fetcher) } }

/-- Symbolic content of a file the executor uploads.  The generator
functions of deploy.ts (`generateDockerCompose`, `generateEnvExample`,
`generateEnvFile`, `generateFetcherDockerfile`, `generateFetcherPackageJson`,
`generateFetcherService`, `generateReadme`) render fixed templates; their
text is irrelevant to every claim, so each upload is recorded by which
generator produced it and the data it was parameterized by (the generated
secrets string stands for the nanoid-random tokens plus timestamp of
`generateEnvFile`). -/
inductive FileContent where
  | compose (ports : SafePorts)
  | envExample
  | envReal (secrets : String)
  | fetcherDockerfile
  | fetcherPackageJson
  | fetcherIndex
  | readme (ports : SafePorts) (now : String)
deriving Repr, DecidableEq

/-- Remote filesystem under `/opt/rentalmonitor`, as an association list from
path to the last content written (later writes shadow earlier ones). -/
abbrev RemoteFS : Type := List (String × FileContent)

/-- Record an upload (deploy.ts `uploadFile`). -/
def writeFile (fs : RemoteFS) (path : String) (content : FileContent) : RemoteFS :=
  (path, content) :: fs

/-- Current content of a path, if any. -/
def readFile (fs : RemoteFS) (path : String) : Option FileContent :=
  match fs with
  | [] => none
  | (p, c) :: rest => if p = path then some c else readFile rest path

def composePath : String := "/opt/rentalmonitor/docker-compose.yml"

def envExamplePath : String := "/opt/rentalmonitor/.env.example"

def envPath : String := "/opt/rentalmonitor/.env"

def dockerfilePath : String := "/opt/rentalmonitor/fetcher/Dockerfile"

def packageJsonPath : String := "/opt/rentalmonitor/fetcher/package.json"

def indexJsPath : String := "/opt/rentalmonitor/fetcher/index.js"

def readmePath : String := "/opt/rentalmonitor/README.md"

/-- Oracle for one `deployToVPS` run: for every remote operation, whether it
fails at the channel level (`some errorMessage`, the promise rejection that
the surrounding try/catch receives) or succeeds, plus the text output of the
output-producing commands, the secrets content `generateEnvFile` would
produce (its nanoid tokens are random), and the timestamp. -/
structure DeployEnv where
  connectErr : Option String
  mkdirErr : Option String
  composeUploadErr : Option String
  envExampleUploadErr : Option String
  envCheckErr : Option String
  envUploadErr : Option String
  dockerfileUploadErr : Option String
  packageUploadErr : Option String
  indexUploadErr : Option String
  readmeUploadErr : Option String
  composeUpErr : Option String
  composeUpOut : String
  composePsErr : Option String
  composePsOut : String
  fetcherProbeErr : Option String
  fetcherProbeOut : String
  ntfyProbeErr : Option String
  ntfyProbeOut : String
  n8nProbeErr : Option String
  n8nProbeOut : String
  pgProbeErr : Option String
  pgProbeOut : String
  generatedSecrets : String
  now : String
deriving Repr, DecidableEq

/-- The all-down services record of the deploy catch branch (deploy.ts lines
471-477). -/
def failServices : Services :=
  { postgres := { running := false, healthy := false, url := none }
    n8n := { running := false, healthy := false, url := none }
    ntfy := { running := false, healthy := false, url := none }
    fetcher := { running := false, healthy := false, url := none } }

/-- Result of one `deployToVPS` run: the returned `DeployResult`, the remote
filesystem after the run, and whether `client.end()` was called. -/
structure DeployOutcome where
  result : DeployResult
  fs : RemoteFS
  sessionClosed : Bool
deriving Repr, DecidableEq

/-- The catch branch of `deployToVPS` (deploy.ts lines 465-479): close the
session, append the error to the log, report failure with every service
down. -/
def deployFail (logs : List String) (fs : RemoteFS) (e : String) : DeployOutcome :=
  { result := { success := false, message := e, logs := logs ++ ["Error: " ++ e],
                services := failServices },
    fs := fs, sessionClosed := true }

/-- Run one remote operation: on a channel-level failure the whole
deployment is aborted through the catch branch, otherwise continue. -/
def stepCheck (e? : Option String) (logs : List String) (fs : RemoteFS)
    (k : Unit → DeployOutcome) : DeployOutcome :=
  match e? with
  | some e => deployFail logs fs e
  | none => k ()

/-- Steps 5-10 of `deployToVPS` (deploy.ts lines 411-463): fetcher-service
uploads, README, `docker compose up`, the flat wait, the `ps` logging query,
the four health probes, and the success result. -/
def deployTail (env : DeployEnv) (ports : SafePorts) (fs : RemoteFS)
    (logs : List String) : DeployOutcome :=
  let logs4 := logs ++ ["Uploading fetcher service..."]
  stepCheck env.dockerfileUploadErr logs4 fs (fun _ =>
  let fsA := writeFile fs dockerfilePath FileContent.fetcherDockerfile
  stepCheck env.packageUploadErr logs4 fsA (fun _ =>
  let fsB := writeFile fsA packageJsonPath FileContent.fetcherPackageJson
  stepCheck env.indexUploadErr logs4 fsB (fun _ =>
  let fsC := writeFile fsB indexJsPath FileContent.fetcherIndex
  let logs5 := logs4 ++ ["Creating README..."]
  stepCheck env.readmeUploadErr logs5 fsC (fun _ =>
  let fsD := writeFile fsC readmePath (FileContent.readme ports env.now)
  let logs6 := logs5 ++ ["Starting Docker Compose stack..."]
  stepCheck env.composeUpErr logs6 fsD (fun _ =>
  let logs7 := logs6 ++ [env.composeUpOut, "Waiting for services to start...",
                         "Checking service health..."]
  stepCheck env.composePsErr logs7 fsD (fun _ =>
  let logs8 := logs7 ++ [env.composePsOut]
  stepCheck env.fetcherProbeErr logs8 fsD (fun _ =>
  stepCheck env.ntfyProbeErr logs8 fsD (fun _ =>
  stepCheck env.n8nProbeErr logs8 fsD (fun _ =>
  stepCheck env.pgProbeErr logs8 fsD (fun _ =>
  { result := { success := true, message := "Deployment completed successfully",
                logs := logs8,
                services := deployHealthSummary
                  { fetcherHealth := env.fetcherProbeOut,
                    ntfyHealth := env.ntfyProbeOut,
                    n8nHealth := env.n8nProbeOut,
                    postgresCheck := env.pgProbeOut } ports },
    fs := fsD, sessionClosed := true }))))))))))

/-- Steps 1-4 of `deployToVPS` (deploy.ts lines 387-409): directory
creation, compose and env-example uploads, then the secrets-file idempotence
guard (`test -f .env`, generating and uploading a fresh `.env` only when it
is missing), then the tail. -/
def deploySteps (env : DeployEnv) (ports : SafePorts) (fs0 : RemoteFS) : DeployOutcome :=
  let logs0 := ["Connected to VPS", "Creating directory structure..."]
  stepCheck env.mkdirErr logs0 fs0 (fun _ =>
  let logs1 := logs0 ++ ["Uploading docker-compose.yml..."]
  stepCheck env.composeUploadErr logs1 fs0 (fun _ =>
  let fs1 := writeFile fs0 composePath (FileContent.compose ports)
  let logs2 := logs1 ++ ["Uploading .env.example..."]
  stepCheck env.envExampleUploadErr logs2 fs1 (fun _ =>
  let fs2 := writeFile fs1 envExamplePath FileContent.envExample
  stepCheck env.envCheckErr logs2 fs2 (fun _ =>
  let envExists := if (readFile fs2 envPath).isSome then "exists\n" else "missing\n"
  if jsTrim envExists = "missing" then
    let logs3 := logs2 ++ ["Creating .env with generated secrets..."]
    stepCheck env.envUploadErr logs3 fs2 (fun _ =>
      deployTail env ports (writeFile fs2 envPath (FileContent.envReal env.generatedSecrets)) logs3)
  else
    deployTail env ports fs2 (logs2 ++ [".env already exists, keeping existing configuration"])))))

/-- Embedding of `deployToVPS` (deploy.ts lines 380-480): a failed
`connectSSH` rejects the whole call (it sits outside the try/catch), and
otherwise the sequential steps run with the catch branch converting the
first channel-level failure into a `success = false` result. -/
def deployToVPS (env : DeployEnv) (ports : SafePorts) (fs0 : RemoteFS) :
    Except String DeployOutcome :=
  match env.connectErr with
  | some e => Except.error e
  | none => Except.ok (deploySteps env ports fs0)

/-- The first channel-level exception among the operations of `deployTail`
(steps 5-10), if any, in execution order. -/
def raisedErrorTail (env : DeployEnv) : Option String :=
  (env.dockerfileUploadErr).orElse (fun _ =>
  (env.packageUploadErr).orElse (fun _ =>
  (env.indexUploadErr).orElse (fun _ =>
  (env.readmeUploadErr).orElse (fun _ =>
  (env.composeUpErr).orElse (fun _ =>
  (env.composePsErr).orElse (fun _ =>
  (env.fetcherProbeErr).orElse (fun _ =>
  (env.ntfyProbeErr).orElse (fun _ =>
  (env.n8nProbeErr).orElse (fun _ =>
  env.pgProbeErr)))))))))

/-- The first channel-level exception a `deployToVPS` run raises during
steps 1-10, if any: operations are consulted in execution order, and the
secrets upload only counts when the secrets file is absent (otherwise that
step never runs). -/
def raisedError (env : DeployEnv) (fs0 : RemoteFS) : Option String :=
  (env.mkdirErr).orElse (fun _ =>
  (env.composeUploadErr).orElse (fun _ =>
  (env.envExampleUploadErr).orElse (fun _ =>
  (env.envCheckErr).orElse (fun _ =>
  ((if (readFile fs0 envPath).isSome then none else env.envUploadErr)).orElse (fun _ =>
  raisedErrorTail env)))))

/-- The default port assignment, used as a concrete plan in witnesses. -/
def defaultPorts : SafePorts :=
  { postgres := 5432, n8n := 5678, ntfy := 8080, fetcher := 3001 }

/-- A deployment oracle where every remote operation succeeds and every
probe returns the empty output. -/
def envAllOk : DeployEnv :=
  { connectErr := none, mkdirErr := none, composeUploadErr := none,
    envExampleUploadErr := none, envCheckErr := none, envUploadErr := none,
    dockerfileUploadErr := none, packageUploadErr := none,
    indexUploadErr := none, readmeUploadErr := none, composeUpErr := none,
    composeUpOut := "", composePsErr := none, composePsOut := "",
    fetcherProbeErr := none, fetcherProbeOut := "", ntfyProbeErr := none,
    ntfyProbeOut := "", n8nProbeErr := none, n8nProbeOut := "",
    pgProbeErr := none, pgProbeOut := "", generatedSecrets := "tokens",
    now := "2025-01-01T00:00:00Z" }

/-- A deployment oracle whose very first remote step (directory creation)
fails at the channel level. -/
def envMkdirBoom : DeployEnv :=
  { envAllOk with mkdirErr := some "boom" }

/-- A remote filesystem already holding a real secrets file. -/
def fsWithEnv : RemoteFS := [(envPath, FileContent.envReal "oldtokens")]

/-! ## Theorems -/

theorem digitChar_isDigit {d : Nat} (h : d < 10) : (digitChar d).isDigit = true := by
  interval_cases d <;> decide

theorem natChars_ne_nil (n : Nat) : natChars n ≠ [] := by
  show natCharsAux (n + 1) n ≠ []
  rw [natCharsAux]
  by_cases h : n < 10
  · rw [if_pos h]
    simp
  · rw [if_neg h]
    simp

theorem natCharsAux_all_digits :
    ∀ (fuel n : Nat), ∀ c ∈ natCharsAux fuel n, c.isDigit = true := by
  intro fuel
  induction fuel with
  | zero => intro n c hc; simp [natCharsAux] at hc
  | succ k ih =>
    intro n c hc
    rw [natCharsAux] at hc
    by_cases h : n < 10
    · rw [if_pos h] at hc
      simp only [List.mem_singleton] at hc
      subst hc
      exact digitChar_isDigit h
    · rw [if_neg h] at hc
      rcases List.mem_append.mp hc with h1 | h2
      · exact ih (n / 10) c h1
      · simp only [List.mem_singleton] at h2
        subst h2
        exact digitChar_isDigit (Nat.mod_lt _ (by omega))

theorem natChars_all_digits (n : Nat) : ∀ c ∈ natChars n, c.isDigit = true :=
  natCharsAux_all_digits (n + 1) n

/-! Auxiliary lemmas: occurrences of a digit-free pattern are unaffected by
splicing a block of digit characters into the text. -/

/-- A pattern without digit characters is never a prefix of a text whose
relevant extension begins with digits: prefix testing "sees through" a
trailing `digits ++ tail` block exactly as far as the prefix `s1` allows. -/
theorem isPrefixOf_append_digits (p : List Char)
    (hp : ∀ c ∈ p, c.isDigit = false) (d : List Char) (hd : ∀ c ∈ d, c.isDigit = true)
    (hdne : d ≠ []) : ∀ (s1 s2 : List Char),
    p.isPrefixOf (s1 ++ d ++ s2) = p.isPrefixOf s1 := by
  induction p with
  | nil => intro s1 s2; simp [List.isPrefixOf]
  | cons x p' ihp =>
    intro s1 s2
    cases s1 with
    | nil =>
      cases d with
      | nil => exact absurd rfl hdne
      | cons e d' =>
        simp only [List.nil_append, List.cons_append, List.isPrefixOf]
        have hx : x.isDigit = false := hp x (List.mem_cons_self x p')
        have he : e.isDigit = true := hd e (List.mem_cons_self e d')
        have hne : (x == e) = false := by
          cases hbe : x == e
          · rfl
          · exfalso
            have : x = e := eq_of_beq hbe
            rw [this] at hx
            rw [hx] at he
            exact Bool.false_ne_true he
        simp [hne]
    | cons y s1' =>
      simp only [List.cons_append, List.isPrefixOf, List.append_eq]
      have := ihp (fun c hc => hp c (List.mem_cons_of_mem x hc)) s1' s2
      rw [this]

/-- Prepending an all-digit block to a text does not create occurrences of a
digit-free nonempty pattern. -/
theorem countSubstr_digits_prepend (p : List Char) (hpne : p ≠ [])
    (hp : ∀ c ∈ p, c.isDigit = false) :
    ∀ (d : List Char), (∀ c ∈ d, c.isDigit = true) →
    ∀ s2, countSubstr p (d ++ s2) = countSubstr p s2 := by
  intro d
  induction d with
  | nil => intro _ s2; simp
  | cons e d' ihd =>
    intro hd s2
    simp only [List.cons_append, countSubstr, List.append_eq]
    have hpref : p.isPrefixOf (e :: (d' ++ s2)) = false := by
      cases p with
      | nil => exact absurd rfl hpne
      | cons x p' =>
        simp only [List.isPrefixOf]
        have hx : x.isDigit = false := hp x (List.mem_cons_self x p')
        have he : e.isDigit = true := hd e (List.mem_cons_self e d')
        have hne : (x == e) = false := by
          cases hbe : x == e
          · rfl
          · exfalso
            have : x = e := eq_of_beq hbe
            rw [this] at hx
            rw [hx] at he
            exact Bool.false_ne_true he
        simp [hne]
    simp only [hpref, Bool.false_eq_true, if_false, Nat.zero_add]
    exact ihd (fun c hc => hd c (List.mem_cons_of_mem e hc)) s2

/-- Splicing an all-digit block between two texts splits the occurrence count
of a digit-free nonempty pattern. -/
theorem countSubstr_append_digits (p : List Char) (hpne : p ≠ [])
    (hp : ∀ c ∈ p, c.isDigit = false) (d : List Char)
    (hd : ∀ c ∈ d, c.isDigit = true) (hdne : d ≠ []) :
    ∀ (s1 s2 : List Char),
    countSubstr p (s1 ++ (d ++ s2)) = countSubstr p s1 + countSubstr p s2 := by
  intro s1
  induction s1 with
  | nil =>
    intro s2
    simp only [List.nil_append]
    rw [countSubstr_digits_prepend p hpne hp d hd s2]
    simp [countSubstr]
  | cons c s1' ihs =>
    intro s2
    simp only [List.cons_append, countSubstr, List.append_eq]
    have hpref : p.isPrefixOf (c :: (s1' ++ (d ++ s2))) = p.isPrefixOf (c :: s1') := by
      have := isPrefixOf_append_digits p hp d hd hdne (c :: s1') s2
      simp only [List.cons_append, List.append_assoc, List.append_eq] at this
      exact this
    simp only [hpref]
    rw [ihs s2]
    by_cases hx : p.isPrefixOf (c :: s1') = true
    · rw [if_pos hx]
      omega
    · rw [if_neg hx]
      omega

/-- For a nonempty pattern, containment is equivalent to a positive
occurrence count. -/
theorem containsSub_iff_pos (p : List Char) (hpne : p ≠ []) :
    ∀ s, containsSub s p = true ↔ 0 < countSubstr p s := by
  intro s
  induction s with
  | nil =>
    cases p with
    | nil => exact absurd rfl hpne
    | cons x p' => simp [containsSub, countSubstr, List.isEmpty]
  | cons c s' ih =>
    simp only [containsSub, countSubstr, Bool.or_eq_true, ih]
    by_cases hpref : p.isPrefixOf (c :: s') = true
    · simp only [hpref, true_or, true_iff, if_pos hpref, if_true]
      omega
    · simp only [hpref, false_or, Bool.false_eq_true, if_neg hpref, if_false]
      omega
theorem findFreePort_eq_filter_head (usedPorts : List Nat) :
    ∀ (fuel start : Nat), findFreePort start fuel usedPorts =
      ((List.range' start fuel).filter (fun q => !usedPorts.contains q)).head? := by
  intro fuel
  induction fuel with
  | zero => intro start; rfl
  | succ k ih =>
    intro start
    rw [List.range'_succ]
    by_cases hm : start ∈ usedPorts
    · simp [findFreePort, hm, List.filter_cons, ih (start + 1)]
    · simp [findFreePort, hm, List.filter_cons]

theorem findFreePort_some {usedPorts : List Nat} :
    ∀ {fuel start r : Nat}, findFreePort start fuel usedPorts = some r →
      start ≤ r ∧ r < start + fuel ∧ r ∉ usedPorts := by
  intro fuel
  induction fuel with
  | zero => intro start r h; exact Option.noConfusion h
  | succ k ih =>
    intro start r h
    by_cases hm : start ∈ usedPorts
    · simp only [findFreePort] at h
      rw [if_pos (by simpa using hm)] at h
      obtain ⟨h1, h2, h3⟩ := ih h
      exact ⟨by omega, by omega, h3⟩
    · simp only [findFreePort] at h
      rw [if_neg (by simpa using hm)] at h
      have := Option.some.inj h
      subst this
      exact ⟨Nat.le_refl _, by omega, hm⟩

theorem findFreePort_none {usedPorts : List Nat} :
    ∀ {fuel start : Nat}, findFreePort start fuel usedPorts = none →
      ∀ q, start ≤ q → q < start + fuel → q ∈ usedPorts := by
  intro fuel
  induction fuel with
  | zero => intro start _ q h1 h2; omega
  | succ k ih =>
    intro start h q h1 h2
    by_cases hm : start ∈ usedPorts
    · simp only [findFreePort] at h
      rw [if_pos (by simpa using hm)] at h
      rcases Nat.eq_or_lt_of_le h1 with rfl | hlt
      · exact hm
      · exact ih h q hlt (by omega)
    · simp only [findFreePort] at h
      rw [if_neg (by simpa using hm)] at h
      exact Option.noConfusion h

/-- Range lemma: every assignment is either within the hundred-candidate
window of its preferred port or exactly the `preferred + 1000` fallback. -/
theorem findSafePort_range (preferred : Nat) (usedPorts : List Nat) :
    (preferred ≤ findSafePort preferred usedPorts ∧
     findSafePort preferred usedPorts ≤ preferred + 99) ∨
    findSafePort preferred usedPorts = preferred + 1000 := by
  by_cases hm : preferred ∈ usedPorts
  · cases hf : findFreePort (preferred + 1) 99 usedPorts with
    | none =>
      right
      simp [findSafePort, hm, hf]
    | some r =>
      obtain ⟨h1, h2, _⟩ := findFreePort_some hf
      have he : findSafePort preferred usedPorts = r := by
        simp [findSafePort, hm, hf]
      left
      rw [he]
      omega
  · have he : findSafePort preferred usedPorts = preferred := by
      simp [findSafePort, hm]
    left
    rw [he]
    omega

/-- Whenever some candidate in the hundred-port window is free, the assigned
port is itself free. -/
theorem findSafePort_free (preferred : Nat) (usedPorts : List Nat)
    (h : ∃ q, preferred ≤ q ∧ q ≤ preferred + 99 ∧ q ∉ usedPorts) :
    findSafePort preferred usedPorts ∉ usedPorts := by
  by_cases hm : preferred ∈ usedPorts
  · obtain ⟨q, hq1, hq2, hq3⟩ := h
    cases hf : findFreePort (preferred + 1) 99 usedPorts with
    | none =>
      exfalso
      have hqp : q ≠ preferred := fun hqeq => hq3 (hqeq ▸ hm)
      exact hq3 (findFreePort_none hf q (by omega) (by omega))
    | some r =>
      have he : findSafePort preferred usedPorts = r := by
        simp [findSafePort, hm, hf]
      rw [he]
      exact (findFreePort_some hf).2.2
  · have he : findSafePort preferred usedPorts = preferred := by
      simp [findSafePort, hm]
    rw [he]
    exact hm

/-! ## Claim theorems: Placement Planner -/

/-- Claim C2: for every used-port list, the assigned port is the preferred
port when it is free, otherwise the first free port in
`preferred+1 .. preferred+99`, otherwise the `preferred + 1000` fallback
(shown as equality of `findSafePort` with the rule restated from the spec);
and concretely, when ports 5432-5531 are all busy the database service is
assigned 6432, which is none of the hundred probed-and-busy ports. -/
theorem claim_C2_findSafePort_rule :
    (∀ preferred usedPorts,
      findSafePort preferred usedPorts = findSafePortSpec preferred usedPorts) ∧
    findSafePort 5432 (List.range' 5432 100) = 6432 ∧
    (6432 : Nat) ∉ List.range' 5432 100 := by
  refine ⟨?_, by decide, by decide⟩
  intro preferred usedPorts
  by_cases hm : preferred ∈ usedPorts
  · simp only [findSafePort, findSafePortSpec]
    rw [if_pos (by simpa using hm), if_pos (by simpa using hm)]
    rw [findFreePort_eq_filter_head]
    cases ((List.range' (preferred + 1) 99).filter
        (fun q => !usedPorts.contains q)).head? with
    | none => rfl
    | some q => rfl
  · simp only [findSafePort, findSafePortSpec]
    rw [if_neg (by simpa using hm), if_neg (by simpa using hm)]

/-- Claim C9: for every used-port list whatsoever the four assigned ports
are pairwise distinct — the candidate windows and fallbacks of the four
preferred ports 5432, 5678, 8080, 3001 never overlap, so distinctness holds
even when a service lands on its `preferred + 1000` fallback. -/
theorem claim_C9_ports_pairwise_distinct (usedPorts : List Nat) :
    (computeSafePorts usedPorts).postgres ≠ (computeSafePorts usedPorts).n8n ∧
    (computeSafePorts usedPorts).postgres ≠ (computeSafePorts usedPorts).ntfy ∧
    (computeSafePorts usedPorts).postgres ≠ (computeSafePorts usedPorts).fetcher ∧
    (computeSafePorts usedPorts).n8n ≠ (computeSafePorts usedPorts).ntfy ∧
    (computeSafePorts usedPorts).n8n ≠ (computeSafePorts usedPorts).fetcher ∧
    (computeSafePorts usedPorts).ntfy ≠ (computeSafePorts usedPorts).fetcher := by
  have h1 := findSafePort_range 5432 usedPorts
  have h2 := findSafePort_range 5678 usedPorts
  have h3 := findSafePort_range 8080 usedPorts
  have h4 := findSafePort_range 3001 usedPorts
  simp only [computeSafePorts]
  omega

/-- Claim C1 is false as stated: on a scan where ports 5432-5531 and 6432
are all busy, the planner sends the database service to its fallback port
6432, which is itself among the scanned ports, so the assignment is not
disjoint from `facts.ports`. -/
theorem claim_C1_counterexample :
    (planPortsFor c1Ports).postgres = 6432 ∧
    (planPortsFor c1Ports).postgres ∈ usedPortsOf c1Ports := by
  constructor
  · decide
  · decide

/-- Claim C1 amended: the four assigned ports are always pairwise distinct
— unconditionally, the `preferred + 1000` fallback case included; and they
avoid every port of `facts.ports` provided each service still has a free
candidate among its hundred probed ports (in the fallback case disjointness
can fail, as the counterexample shows).  The free-window proviso scopes
only the disjointness conjunct. -/
theorem claim_C1_ports_distinct_and_disjoint (usedPorts : List Nat) :
    ((computeSafePorts usedPorts).postgres ≠ (computeSafePorts usedPorts).n8n ∧
     (computeSafePorts usedPorts).postgres ≠ (computeSafePorts usedPorts).ntfy ∧
     (computeSafePorts usedPorts).postgres ≠ (computeSafePorts usedPorts).fetcher ∧
     (computeSafePorts usedPorts).n8n ≠ (computeSafePorts usedPorts).ntfy ∧
     (computeSafePorts usedPorts).n8n ≠ (computeSafePorts usedPorts).fetcher ∧
     (computeSafePorts usedPorts).ntfy ≠ (computeSafePorts usedPorts).fetcher) ∧
    ((∀ preferred, preferred ∈ ([5432, 5678, 8080, 3001] : List Nat) →
        ∃ q, preferred ≤ q ∧ q ≤ preferred + 99 ∧ q ∉ usedPorts) →
      ((computeSafePorts usedPorts).postgres ∉ usedPorts ∧
       (computeSafePorts usedPorts).n8n ∉ usedPorts ∧
       (computeSafePorts usedPorts).ntfy ∉ usedPorts ∧
       (computeSafePorts usedPorts).fetcher ∉ usedPorts)) := by
  constructor
  · have h1 := findSafePort_range 5432 usedPorts
    have h2 := findSafePort_range 5678 usedPorts
    have h3 := findSafePort_range 8080 usedPorts
    have h4 := findSafePort_range 3001 usedPorts
    simp only [computeSafePorts]
    omega
  · intro h
    exact ⟨findSafePort_free 5432 usedPorts (h 5432 (by simp)),
           findSafePort_free 5678 usedPorts (h 5678 (by simp)),
           findSafePort_free 8080 usedPorts (h 8080 (by simp)),
           findSafePort_free 3001 usedPorts (h 3001 (by simp))⟩

/-- Witness for the amended C1: the unconditional distinctness conjunct is
exercised at the fallback-heavy `c1Ports` scan (where the database service
sits on its `preferred + 1000` fallback), and the conditional disjointness
conjunct at the empty port list, where the free-window proviso holds. -/
theorem claim_C1_ports_distinct_and_disjoint_witness :
    ((planPortsFor c1Ports).postgres ≠ (planPortsFor c1Ports).n8n ∧
     (computeSafePorts []).postgres ≠ (computeSafePorts []).n8n) ∧
    (computeSafePorts []).postgres ∉ ([] : List Nat) := by
  have hfall := claim_C1_ports_distinct_and_disjoint (usedPortsOf c1Ports)
  have hfree := claim_C1_ports_distinct_and_disjoint []
  refine ⟨⟨hfall.1.1, hfree.1.1⟩, ?_⟩
  exact (hfree.2 (by
    intro preferred hmem
    exact ⟨preferred, Nat.le_refl _, by omega, by simp⟩)).1


/-! ## Claim theorems: Proxy Config Synthesizer -/

/-- Occurrence counting distributes over the rendered nginx template: since
interpolated port numbers are nonempty digit strings and the pattern has no
digit characters, every occurrence lies inside one of the six fixed
segments. -/
theorem countSubstr_nginxConfig (pat : List Char) (hpne : pat ≠ [])
    (hp : ∀ c ∈ pat, c.isDigit = false) (ports : SafePorts) :
    countSubstr pat (generateNginxConfig ports).data =
      countSubstr pat nginxSeg0 + (countSubstr pat nginxSeg1 +
      (countSubstr pat nginxSeg2 + (countSubstr pat nginxSeg3 +
      (countSubstr pat nginxSeg4 + countSubstr pat nginxSeg5)))) := by
  show countSubstr pat
      (nginxSeg0 ++ (natChars ports.n8n ++ (nginxSeg1 ++ (natChars ports.ntfy ++
        (nginxSeg2 ++ (natChars ports.fetcher ++ (nginxSeg3 ++ (natChars ports.n8n ++
        (nginxSeg4 ++ (natChars ports.ntfy ++ nginxSeg5)))))))))) = _
  rw [countSubstr_append_digits pat hpne hp (natChars ports.n8n)
        (natChars_all_digits _) (natChars_ne_nil _),
      countSubstr_append_digits pat hpne hp (natChars ports.ntfy)
        (natChars_all_digits _) (natChars_ne_nil _),
      countSubstr_append_digits pat hpne hp (natChars ports.fetcher)
        (natChars_all_digits _) (natChars_ne_nil _),
      countSubstr_append_digits pat hpne hp (natChars ports.n8n)
        (natChars_all_digits _) (natChars_ne_nil _),
      countSubstr_append_digits pat hpne hp (natChars ports.ntfy)
        (natChars_all_digits _) (natChars_ne_nil _)]

/-- Claim C8 is false as stated: already at the default ports the rendered
nginx snippet contains the substring `proxy_pass` five times — three active
`location` blocks plus two occurrences inside the commented-out subdomain
alternative — not exactly three. -/
theorem claim_C8_counterexample :
    countSubstr proxyPassPat (generateNginxConfig defaultPorts).data ≠ 3 ∧
    countSubstr proxyPassPat (generateNginxConfig defaultPorts).data = 5 := by
  have h5 : countSubstr proxyPassPat (generateNginxConfig defaultPorts).data = 5 := by
    rw [countSubstr_nginxConfig proxyPassPat (by decide) (by decide) defaultPorts]
    decide
  rw [h5]
  exact ⟨by decide, rfl⟩

/-- Claim C8 amended: for every port assignment, the rendered nginx snippet
never contains the substring `reverse_proxy`, and contains `proxy_pass`
exactly five times: once per proxied service (n8n, ntfy, fetcher) in the
active server block, plus twice more in the commented-out subdomain
alternative the template also emits. -/
theorem claim_C8_nginx_template (ports : SafePorts) :
    countSubstr proxyPassPat (generateNginxConfig ports).data = 5 ∧
    containsSub (generateNginxConfig ports).data reverseProxyPat = false := by
  constructor
  · rw [countSubstr_nginxConfig proxyPassPat (by decide) (by decide) ports]
    decide
  · have hcount : countSubstr reverseProxyPat (generateNginxConfig ports).data = 0 := by
      rw [countSubstr_nginxConfig reverseProxyPat (by decide) (by decide) ports]
      decide
    have hiff := containsSub_iff_pos reverseProxyPat (by decide)
      (generateNginxConfig ports).data
    rw [hcount] at hiff
    cases hcs : containsSub (generateNginxConfig ports).data reverseProxyPat
    · rfl
    · exact absurd (hiff.mp hcs) (by omega)

/-! ## Claim theorems: ports-table parser -/

/-- Every word the whitespace splitter emits is nonempty. -/
theorem wordsAux_mem_ne_nil :
    ∀ (s acc : List Char), ∀ w ∈ wordsAux s acc, w ≠ [] := by
  intro s
  induction s with
  | nil =>
    intro acc w hw
    simp only [wordsAux] at hw
    by_cases ha : acc.isEmpty
    · rw [if_pos ha] at hw
      simp at hw
    · rw [if_neg ha] at hw
      simp only [List.mem_singleton] at hw
      subst hw
      simp only [ne_eq, List.reverse_eq_nil_iff]
      simpa [List.isEmpty_iff] using ha
  | cons c rest ih =>
    intro acc w hw
    simp only [wordsAux] at hw
    by_cases hc : isWs c = true
    · rw [if_pos hc] at hw
      by_cases ha : acc.isEmpty
      · rw [if_pos ha] at hw
        exact ih [] w hw
      · rw [if_neg ha] at hw
        rcases List.mem_cons.mp hw with rfl | h2
        · simp only [ne_eq, List.reverse_eq_nil_iff]
          simpa [List.isEmpty_iff] using ha
        · exact ih [] w h2
    · rw [if_neg hc] at hw
      exact ih (c :: acc) w hw

/-- The push-loop of the ports parser is the filterMap of its line parser:
lines the parser rejects contribute nothing, every accepted line contributes
exactly its entry, in order. -/
theorem parsePortsGo_eq_filterMap :
    ∀ (lines : List (List Char)) (acc : List PortEntry),
      parsePortsGo acc lines = acc ++ lines.filterMap parseLine := by
  intro lines
  induction lines with
  | nil => intro acc; simp [parsePortsGo]
  | cons line rest ih =>
    intro acc
    simp only [parsePortsGo]
    cases hp : parseLine line with
    | some e => simp [List.filterMap_cons, hp, ih, List.append_assoc]
    | none => simp [List.filterMap_cons, hp, ih]

/-- The line parser accepts a line exactly when it is well-formed in the
claim's sense: at least four whitespace-separated fields and a
local-address field ending in `:digits`. -/
theorem parseLine_isSome_iff_wellFormed (line : List Char) :
    (parseLine line).isSome = wellFormedLine line := by
  simp only [parseLine, wellFormedLine]
  generalize hws : splitWs (trimChars line) = parts
  rcases parts with _ | ⟨a, _ | ⟨b, _ | ⟨c, _ | ⟨d, t4⟩⟩⟩⟩
  · simp
  · simp
  · simp
  · simp
  · have hd : d ∈ splitWs (trimChars line) := by rw [hws]; simp
    have hdne : d ≠ [] := wordsAux_mem_ne_nil _ _ d hd
    have hlen : (a :: b :: c :: d :: t4).length ≥ 4 := by simp
    rw [if_pos hlen]
    simp only [List.getD_cons_succ, List.getD_cons_zero]
    have hjs : jsOr d (t4.getD 0 []) = d := by
      unfold jsOr
      rw [if_neg (by simpa [List.isEmpty_iff] using hdne)]
    rw [hjs]
    rw [if_neg (by simpa [List.isEmpty_iff] using hdne)]
    cases hpd : portDigits d with
    | some ds => simp [hlen]
    | none => simp [hlen]

/-- Claim C6: the parser skips the header line, silently skips every line
its line parser rejects while still parsing the rest (the loop equals the
filterMap of the line parser over the post-header lines), and the line
parser accepts exactly the well-formed lines — at least four
whitespace-separated fields with a local-address field ending in
`:digits`. -/
theorem claim_C6_parse_defensive (raw : List Char) :
    parseListeningPorts raw =
      ((splitOnNl (trimChars raw)).drop 1).filterMap parseLine ∧
    (∀ line : List Char, (parseLine line).isSome = wellFormedLine line) := by
  constructor
  · unfold parseListeningPorts
    rw [parsePortsGo_eq_filterMap]
    simp
  · intro line
    exact parseLine_isSome_iff_wellFormed line

/-! ## Claim theorems: Health Prober -/

/-- Claim C7: given the same four probe outputs and the same port
assignment, the standalone health prober returns exactly the record the
deployment health-check step computes. -/
theorem claim_C7_prober_matches_deploy (h : HealthOutputs) (ports : SafePorts) :
    checkVPSServices h ports = deployHealthSummary h ports := rfl

/-- Claim C5 is false as stated: a body containing both `healthy` and
`failed` is reported healthy by the code, while the claimed rule
(healthy iff the body does not contain `failed`) calls it unhealthy. -/
theorem claim_C5_counterexample :
    ¬ (((deployHealthSummary
          { fetcherHealth := "", ntfyHealth := "healthy failed",
            n8nHealth := "", postgresCheck := "" } defaultPorts).ntfy.healthy = true)
        ↔ includes "healthy failed" "failed" = false) := by
  decide

/-- Claim C5 amended: the notification service is reported unhealthy exactly
when its response body contains `failed` and does not contain `healthy`
(the code also accepts any body containing `healthy`); in particular a body
of `"failed"` maps to not-healthy and an empty body maps to healthy, for
every port assignment and any other probe outputs. -/
theorem claim_C5_ntfy_heuristic (h : HealthOutputs) (ports : SafePorts) :
    ((deployHealthSummary h ports).ntfy.healthy = false ↔
      (includes h.ntfyHealth "failed" = true ∧ includes h.ntfyHealth "healthy" = false)) ∧
    (∀ f n p, (deployHealthSummary
        { fetcherHealth := f, ntfyHealth := "failed", n8nHealth := n, postgresCheck := p }
        ports).ntfy.healthy = false) ∧
    (∀ f n p, (deployHealthSummary
        { fetcherHealth := f, ntfyHealth := "", n8nHealth := n, postgresCheck := p }
        ports).ntfy.healthy = true) := by
  refine ⟨?_, ?_, ?_⟩
  · simp only [deployHealthSummary]
    cases h1 : includes h.ntfyHealth "healthy" <;>
      cases h2 : includes h.ntfyHealth "failed" <;> simp_all
  · intro f n p
    show (includes "failed" "healthy" || !includes "failed" "failed") = false
    decide
  · intro f n p
    show (includes "" "healthy" || !includes "" "failed") = true
    decide

/-! ## Claim theorems: Deployment Executor -/

/-- Reading one path is unaffected by a write to a different path. -/
theorem readFile_writeFile_ne (fs : RemoteFS) (p q : String) (c : FileContent)
    (hne : ¬ p = q) : readFile (writeFile fs p c) q = readFile fs q := by
  simp [readFile, writeFile, hne]

/-- When some operation of the tail fails, the tail returns the catch
branch's failure outcome: success false, the error as message and appended
to the log, all services down, session closed. -/
theorem deployTail_fail (env : DeployEnv) (ports : SafePorts) (fs : RemoteFS)
    (logs : List String) (e : String) (h : raisedErrorTail env = some e) :
    (deployTail env ports fs logs).result.success = false ∧
    (deployTail env ports fs logs).result.message = e ∧
    (deployTail env ports fs logs).result.services = failServices ∧
    (deployTail env ports fs logs).result.logs.getLast? = some ("Error: " ++ e) ∧
    (deployTail env ports fs logs).sessionClosed = true := by
  cases h1 : env.dockerfileUploadErr with
  | some e1 =>
    simp only [raisedErrorTail, h1, Option.orElse] at h
    obtain rfl := Option.some.inj h
    simp [deployTail, stepCheck, h1, deployFail, List.getLast?_concat]
  | none =>
    cases h2 : env.packageUploadErr with
    | some e1 =>
      simp only [raisedErrorTail, h1, h2, Option.orElse] at h
      obtain rfl := Option.some.inj h
      simp [deployTail, stepCheck, h1, h2, deployFail, List.getLast?_concat]
    | none =>
      cases h3 : env.indexUploadErr with
      | some e1 =>
        simp only [raisedErrorTail, h1, h2, h3, Option.orElse] at h
        obtain rfl := Option.some.inj h
        simp [deployTail, stepCheck, h1, h2, h3, deployFail, List.getLast?_concat]
      | none =>
        cases h4 : env.readmeUploadErr with
        | some e1 =>
          simp only [raisedErrorTail, h1, h2, h3, h4, Option.orElse] at h
          obtain rfl := Option.some.inj h
          simp [deployTail, stepCheck, h1, h2, h3, h4, deployFail, List.getLast?_concat]
        | none =>
          cases h5 : env.composeUpErr with
          | some e1 =>
            simp only [raisedErrorTail, h1, h2, h3, h4, h5, Option.orElse] at h
            obtain rfl := Option.some.inj h
            simp [deployTail, stepCheck, h1, h2, h3, h4, h5, deployFail, List.getLast?_concat]
          | none =>
            cases h6 : env.composePsErr with
            | some e1 =>
              simp only [raisedErrorTail, h1, h2, h3, h4, h5, h6, Option.orElse] at h
              obtain rfl := Option.some.inj h
              simp [deployTail, stepCheck, h1, h2, h3, h4, h5, h6, deployFail, List.getLast?_concat]
            | none =>
              cases h7 : env.fetcherProbeErr with
              | some e1 =>
                simp only [raisedErrorTail, h1, h2, h3, h4, h5, h6, h7, Option.orElse] at h
                obtain rfl := Option.some.inj h
                simp [deployTail, stepCheck, h1, h2, h3, h4, h5, h6, h7, deployFail, List.getLast?_concat]
              | none =>
                cases h8 : env.ntfyProbeErr with
                | some e1 =>
                  simp only [raisedErrorTail, h1, h2, h3, h4, h5, h6, h7, h8, Option.orElse] at h
                  obtain rfl := Option.some.inj h
                  simp [deployTail, stepCheck, h1, h2, h3, h4, h5, h6, h7, h8, deployFail, List.getLast?_concat]
                | none =>
                  cases h9 : env.n8nProbeErr with
                  | some e1 =>
                    simp only [raisedErrorTail, h1, h2, h3, h4, h5, h6, h7, h8, h9, Option.orElse] at h
                    obtain rfl := Option.some.inj h
                    simp [deployTail, stepCheck, h1, h2, h3, h4, h5, h6, h7, h8, h9, deployFail, List.getLast?_concat]
                  | none =>
                    cases h10 : env.pgProbeErr with
                    | some e1 =>
                      simp only [raisedErrorTail, h1, h2, h3, h4, h5, h6, h7, h8, h9, h10, Option.orElse] at h
                      obtain rfl := Option.some.inj h
                      simp [deployTail, stepCheck, h1, h2, h3, h4, h5, h6, h7, h8, h9, h10, deployFail, List.getLast?_concat]
                    | none =>
                      simp only [raisedErrorTail, h1, h2, h3, h4, h5, h6, h7, h8, h9, h10, Option.orElse] at h
                      exact Option.noConfusion h

/-- When every operation of the tail succeeds, the tail returns the success
outcome whose services record is the health summary of the four probe
outputs. -/
theorem deployTail_ok (env : DeployEnv) (ports : SafePorts) (fs : RemoteFS)
    (logs : List String) (h : raisedErrorTail env = none) :
    (deployTail env ports fs logs).result.success = true ∧
    (deployTail env ports fs logs).result.message = "Deployment completed successfully" ∧
    (deployTail env ports fs logs).result.services = deployHealthSummary
      { fetcherHealth := env.fetcherProbeOut, ntfyHealth := env.ntfyProbeOut,
        n8nHealth := env.n8nProbeOut, postgresCheck := env.pgProbeOut } ports ∧
    (deployTail env ports fs logs).sessionClosed = true := by
  cases h1 : env.dockerfileUploadErr with
  | some e1 =>
    simp only [raisedErrorTail, h1, Option.orElse] at h
    exact Option.noConfusion h
  | none =>
    cases h2 : env.packageUploadErr with
    | some e1 =>
      simp only [raisedErrorTail, h1, h2, Option.orElse] at h
      exact Option.noConfusion h
    | none =>
      cases h3 : env.indexUploadErr with
      | some e1 =>
        simp only [raisedErrorTail, h1, h2, h3, Option.orElse] at h
        exact Option.noConfusion h
      | none =>
        cases h4 : env.readmeUploadErr with
        | some e1 =>
          simp only [raisedErrorTail, h1, h2, h3, h4, Option.orElse] at h
          exact Option.noConfusion h
        | none =>
          cases h5 : env.composeUpErr with
          | some e1 =>
            simp only [raisedErrorTail, h1, h2, h3, h4, h5, Option.orElse] at h
            exact Option.noConfusion h
          | none =>
            cases h6 : env.composePsErr with
            | some e1 =>
              simp only [raisedErrorTail, h1, h2, h3, h4, h5, h6, Option.orElse] at h
              exact Option.noConfusion h
            | none =>
              cases h7 : env.fetcherProbeErr with
              | some e1 =>
                simp only [raisedErrorTail, h1, h2, h3, h4, h5, h6, h7, Option.orElse] at h
                exact Option.noConfusion h
              | none =>
                cases h8 : env.ntfyProbeErr with
                | some e1 =>
                  simp only [raisedErrorTail, h1, h2, h3, h4, h5, h6, h7, h8, Option.orElse] at h
                  exact Option.noConfusion h
                | none =>
                  cases h9 : env.n8nProbeErr with
                  | some e1 =>
                    simp only [raisedErrorTail, h1, h2, h3, h4, h5, h6, h7, h8, h9, Option.orElse] at h
                    exact Option.noConfusion h
                  | none =>
                    cases h10 : env.pgProbeErr with
                    | some e1 =>
                      simp only [raisedErrorTail, h1, h2, h3, h4, h5, h6, h7, h8, h9, h10, Option.orElse] at h
                      exact Option.noConfusion h
                    | none =>
                      simp [deployTail, stepCheck, h1, h2, h3, h4, h5, h6, h7, h8, h9, h10]

/-- The tail never touches the secrets file: the content at the secrets
path after the tail equals the content before it, on every path through it. -/
theorem deployTail_fs_env (env : DeployEnv) (ports : SafePorts) (fs : RemoteFS)
    (logs : List String) :
    readFile (deployTail env ports fs logs).fs envPath = readFile fs envPath := by
  cases h1 : env.dockerfileUploadErr with
  | some e1 =>
    simp only [deployTail, stepCheck, h1, deployFail]
  | none =>
    cases h2 : env.packageUploadErr with
    | some e1 =>
      simp only [deployTail, stepCheck, h1, h2, deployFail]
      rw [readFile_writeFile_ne _ _ _ _ (by decide)]
    | none =>
      cases h3 : env.indexUploadErr with
      | some e1 =>
        simp only [deployTail, stepCheck, h1, h2, h3, deployFail]
        rw [readFile_writeFile_ne _ _ _ _ (by decide)]
        rw [readFile_writeFile_ne _ _ _ _ (by decide)]
      | none =>
        cases h4 : env.readmeUploadErr with
        | some e1 =>
          simp only [deployTail, stepCheck, h1, h2, h3, h4, deployFail]
          rw [readFile_writeFile_ne _ _ _ _ (by decide)]
          rw [readFile_writeFile_ne _ _ _ _ (by decide)]
          rw [readFile_writeFile_ne _ _ _ _ (by decide)]
        | none =>
          cases h5 : env.composeUpErr with
          | some e1 =>
            simp only [deployTail, stepCheck, h1, h2, h3, h4, h5, deployFail]
            rw [readFile_writeFile_ne _ _ _ _ (by decide)]
            rw [readFile_writeFile_ne _ _ _ _ (by decide)]
            rw [readFile_writeFile_ne _ _ _ _ (by decide)]
            rw [readFile_writeFile_ne _ _ _ _ (by decide)]
          | none =>
            cases h6 : env.composePsErr with
            | some e1 =>
              simp only [deployTail, stepCheck, h1, h2, h3, h4, h5, h6, deployFail]
              rw [readFile_writeFile_ne _ _ _ _ (by decide)]
              rw [readFile_writeFile_ne _ _ _ _ (by decide)]
              rw [readFile_writeFile_ne _ _ _ _ (by decide)]
              rw [readFile_writeFile_ne _ _ _ _ (by decide)]
            | none =>
              cases h7 : env.fetcherProbeErr with
              | some e1 =>
                simp only [deployTail, stepCheck, h1, h2, h3, h4, h5, h6, h7, deployFail]
                rw [readFile_writeFile_ne _ _ _ _ (by decide)]
                rw [readFile_writeFile_ne _ _ _ _ (by decide)]
                rw [readFile_writeFile_ne _ _ _ _ (by decide)]
                rw [readFile_writeFile_ne _ _ _ _ (by decide)]
              | none =>
                cases h8 : env.ntfyProbeErr with
                | some e1 =>
                  simp only [deployTail, stepCheck, h1, h2, h3, h4, h5, h6, h7, h8, deployFail]
                  rw [readFile_writeFile_ne _ _ _ _ (by decide)]
                  rw [readFile_writeFile_ne _ _ _ _ (by decide)]
                  rw [readFile_writeFile_ne _ _ _ _ (by decide)]
                  rw [readFile_writeFile_ne _ _ _ _ (by decide)]
                | none =>
                  cases h9 : env.n8nProbeErr with
                  | some e1 =>
                    simp only [deployTail, stepCheck, h1, h2, h3, h4, h5, h6, h7, h8, h9, deployFail]
                    rw [readFile_writeFile_ne _ _ _ _ (by decide)]
                    rw [readFile_writeFile_ne _ _ _ _ (by decide)]
                    rw [readFile_writeFile_ne _ _ _ _ (by decide)]
                    rw [readFile_writeFile_ne _ _ _ _ (by decide)]
                  | none =>
                    cases h10 : env.pgProbeErr with
                    | some e1 =>
                      simp only [deployTail, stepCheck, h1, h2, h3, h4, h5, h6, h7, h8, h9, h10, deployFail]
                      rw [readFile_writeFile_ne _ _ _ _ (by decide)]
                      rw [readFile_writeFile_ne _ _ _ _ (by decide)]
                      rw [readFile_writeFile_ne _ _ _ _ (by decide)]
                      rw [readFile_writeFile_ne _ _ _ _ (by decide)]
                    | none =>
                      simp only [deployTail, stepCheck, h1, h2, h3, h4, h5, h6, h7, h8, h9, h10]
                      rw [readFile_writeFile_ne _ _ _ _ (by decide)]
                      rw [readFile_writeFile_ne _ _ _ _ (by decide)]
                      rw [readFile_writeFile_ne _ _ _ _ (by decide)]
                      rw [readFile_writeFile_ne _ _ _ _ (by decide)]


/-- When some operation of steps 1-10 fails, `deploySteps` returns the catch
branch's failure outcome. -/
theorem deploySteps_fail (env : DeployEnv) (ports : SafePorts) (fs0 : RemoteFS)
    (e : String) (h : raisedError env fs0 = some e) :
    (deploySteps env ports fs0).result.success = false ∧
    (deploySteps env ports fs0).result.message = e ∧
    (deploySteps env ports fs0).result.services = failServices ∧
    (deploySteps env ports fs0).result.logs.getLast? = some ("Error: " ++ e) ∧
    (deploySteps env ports fs0).sessionClosed = true := by
  have hfs2 : readFile (writeFile (writeFile fs0 composePath (FileContent.compose ports))
      envExamplePath FileContent.envExample) envPath = readFile fs0 envPath := by
    rw [readFile_writeFile_ne _ _ _ _ (by decide), readFile_writeFile_ne _ _ _ _ (by decide)]
  have hjtE : ¬ (jsTrim "exists\n" = "missing") := by decide
  have hjtM : jsTrim "missing\n" = "missing" := by decide
  cases h1 : env.mkdirErr with
  | some e1 =>
    simp only [raisedError, h1, Option.orElse] at h
    obtain rfl := Option.some.inj h
    simp [deploySteps, stepCheck, h1, deployFail, List.getLast?_concat]
  | none =>
  cases h2 : env.composeUploadErr with
  | some e1 =>
    simp only [raisedError, h1, h2, Option.orElse] at h
    obtain rfl := Option.some.inj h
    simp [deploySteps, stepCheck, h1, h2, deployFail, List.getLast?_concat]
  | none =>
  cases h3 : env.envExampleUploadErr with
  | some e1 =>
    simp only [raisedError, h1, h2, h3, Option.orElse] at h
    obtain rfl := Option.some.inj h
    simp [deploySteps, stepCheck, h1, h2, h3, deployFail, List.getLast?_concat]
  | none =>
  cases h4 : env.envCheckErr with
  | some e1 =>
    simp only [raisedError, h1, h2, h3, h4, Option.orElse] at h
    obtain rfl := Option.some.inj h
    simp [deploySteps, stepCheck, h1, h2, h3, h4, deployFail, List.getLast?_concat]
  | none =>
  cases hex : (readFile fs0 envPath).isSome with
  | true =>
    simp [raisedError, h1, h2, h3, h4, hex, Option.orElse] at h
    simp [deploySteps, stepCheck, h1, h2, h3, h4, hfs2, hex, hjtE]
    exact deployTail_fail _ _ _ _ _ h
  | false =>
    simp [raisedError, h1, h2, h3, h4, hex, Option.orElse] at h
    cases h5 : env.envUploadErr with
    | some e1 =>
      simp only [h5, Option.orElse] at h
      obtain rfl := Option.some.inj h
      simp [deploySteps, stepCheck, h1, h2, h3, h4, h5, hfs2, hex, hjtM, deployFail,
        List.getLast?_concat]
    | none =>
      simp only [h5, Option.orElse] at h
      simp [deploySteps, stepCheck, h1, h2, h3, h4, h5, hfs2, hex, hjtM]
      exact deployTail_fail _ _ _ _ _ h

/-- When no operation of steps 1-10 fails, `deploySteps` reports success with
the health summary of the probe outputs — regardless of what those outputs
say. -/
theorem deploySteps_ok (env : DeployEnv) (ports : SafePorts) (fs0 : RemoteFS)
    (h : raisedError env fs0 = none) :
    (deploySteps env ports fs0).result.success = true ∧
    (deploySteps env ports fs0).result.message = "Deployment completed successfully" ∧
    (deploySteps env ports fs0).result.services = deployHealthSummary
      { fetcherHealth := env.fetcherProbeOut, ntfyHealth := env.ntfyProbeOut,
        n8nHealth := env.n8nProbeOut, postgresCheck := env.pgProbeOut } ports := by
  have hfs2 : readFile (writeFile (writeFile fs0 composePath (FileContent.compose ports))
      envExamplePath FileContent.envExample) envPath = readFile fs0 envPath := by
    rw [readFile_writeFile_ne _ _ _ _ (by decide), readFile_writeFile_ne _ _ _ _ (by decide)]
  have hjtE : ¬ (jsTrim "exists\n" = "missing") := by decide
  have hjtM : jsTrim "missing\n" = "missing" := by decide
  cases h1 : env.mkdirErr with
  | some e1 =>
    simp only [raisedError, h1, Option.orElse] at h
    exact Option.noConfusion h
  | none =>
  cases h2 : env.composeUploadErr with
  | some e1 =>
    simp only [raisedError, h1, h2, Option.orElse] at h
    exact Option.noConfusion h
  | none =>
  cases h3 : env.envExampleUploadErr with
  | some e1 =>
    simp only [raisedError, h1, h2, h3, Option.orElse] at h
    exact Option.noConfusion h
  | none =>
  cases h4 : env.envCheckErr with
  | some e1 =>
    simp only [raisedError, h1, h2, h3, h4, Option.orElse] at h
    exact Option.noConfusion h
  | none =>
  cases hex : (readFile fs0 envPath).isSome with
  | true =>
    simp [raisedError, h1, h2, h3, h4, hex, Option.orElse] at h
    simp [deploySteps, stepCheck, h1, h2, h3, h4, hfs2, hex, hjtE]
    exact ⟨(deployTail_ok env ports _ _ h).1, (deployTail_ok env ports _ _ h).2.1,
           (deployTail_ok env ports _ _ h).2.2.1⟩
  | false =>
    simp [raisedError, h1, h2, h3, h4, hex, Option.orElse] at h
    cases h5 : env.envUploadErr with
    | some e1 =>
      simp only [h5, Option.orElse] at h
      exact Option.noConfusion h
    | none =>
      simp only [h5, Option.orElse] at h
      simp [deploySteps, stepCheck, h1, h2, h3, h4, h5, hfs2, hex, hjtM]
      exact ⟨(deployTail_ok env ports _ _ h).1, (deployTail_ok env ports _ _ h).2.1,
             (deployTail_ok env ports _ _ h).2.2.1⟩

/-- When the real secrets file is present before deployment, no path through
`deploySteps` ever writes to it: its content afterwards is unchanged. -/
theorem deploySteps_fs_env (env : DeployEnv) (ports : SafePorts) (fs0 : RemoteFS)
    (c : FileContent) (henv : readFile fs0 envPath = some c) :
    readFile (deploySteps env ports fs0).fs envPath = some c := by
  have hfs2 : readFile (writeFile (writeFile fs0 composePath (FileContent.compose ports))
      envExamplePath FileContent.envExample) envPath = readFile fs0 envPath := by
    rw [readFile_writeFile_ne _ _ _ _ (by decide), readFile_writeFile_ne _ _ _ _ (by decide)]
  have hex : (readFile fs0 envPath).isSome = true := by rw [henv]; rfl
  have hjtE : ¬ (jsTrim "exists\n" = "missing") := by decide
  cases h1 : env.mkdirErr with
  | some e1 =>
    simp only [deploySteps, stepCheck, h1, deployFail]
    exact henv
  | none =>
  cases h2 : env.composeUploadErr with
  | some e1 =>
    simp only [deploySteps, stepCheck, h1, h2, deployFail]
    exact henv
  | none =>
  cases h3 : env.envExampleUploadErr with
  | some e1 =>
    simp only [deploySteps, stepCheck, h1, h2, h3, deployFail]
    rw [readFile_writeFile_ne _ _ _ _ (by decide)]
    exact henv
  | none =>
  cases h4 : env.envCheckErr with
  | some e1 =>
    simp only [deploySteps, stepCheck, h1, h2, h3, h4, deployFail]
    rw [readFile_writeFile_ne _ _ _ _ (by decide), readFile_writeFile_ne _ _ _ _ (by decide)]
    exact henv
  | none =>
    simp only [deploySteps, stepCheck, h1, h2, h3, h4]
    simp [hfs2, hex, hjtE]
    rw [deployTail_fs_env]
    rw [readFile_writeFile_ne _ _ _ _ (by decide), readFile_writeFile_ne _ _ _ _ (by decide)]
    exact henv

/-- Claim C3: whenever some remote operation of steps 1-10 raises, the
deployment aborts through the catch branch: the session is closed, the
error message becomes the result message and is appended as the final log
line, and the call returns success false with all four services reported
not running and not healthy. -/
theorem claim_C3_failure_reports_all_down (env : DeployEnv) (ports : SafePorts)
    (fs0 : RemoteFS) (e : String) (hc : env.connectErr = none)
    (hr : raisedError env fs0 = some e) :
    ∃ out, deployToVPS env ports fs0 = Except.ok out ∧
      out.result.success = false ∧
      out.result.message = e ∧
      out.result.services = failServices ∧
      out.result.logs.getLast? = some ("Error: " ++ e) ∧
      out.sessionClosed = true := by
  obtain ⟨hsucc, hmsg, hserv, hlog, hsess⟩ := deploySteps_fail env ports fs0 e hr
  exact ⟨deploySteps env ports fs0, by simp [deployToVPS, hc], hsucc, hmsg, hserv, hlog, hsess⟩

/-- Witness for C3: a run whose very first step (directory creation) fails
returns a failure result with the error as its message. -/
theorem claim_C3_witness :
    ∃ out, deployToVPS envMkdirBoom defaultPorts [] = Except.ok out ∧
      out.result.success = false ∧ out.result.message = "boom" := by
  obtain ⟨out, hok, hsucc, hmsg, _⟩ :=
    claim_C3_failure_reports_all_down envMkdirBoom defaultPorts [] "boom" rfl rfl
  exact ⟨out, hok, hsucc, hmsg⟩

/-- Claim C10: whenever no exception is raised during steps 1-10, the
deployment returns success true with the fixed message, whatever the four
health probes answered — the success flag does not depend on the
per-service health results. -/
theorem claim_C10_success_independent_of_health (env : DeployEnv)
    (ports : SafePorts) (fs0 : RemoteFS) (hc : env.connectErr = none)
    (hr : raisedError env fs0 = none) :
    ∃ out, deployToVPS env ports fs0 = Except.ok out ∧
      out.result.success = true ∧
      out.result.message = "Deployment completed successfully" ∧
      out.result.services = deployHealthSummary
        { fetcherHealth := env.fetcherProbeOut, ntfyHealth := env.ntfyProbeOut,
          n8nHealth := env.n8nProbeOut, postgresCheck := env.pgProbeOut } ports := by
  obtain ⟨hsucc, hmsg, hserv⟩ := deploySteps_ok env ports fs0 hr
  exact ⟨deploySteps env ports fs0, by simp [deployToVPS, hc], hsucc, hmsg, hserv⟩

/-- Witness for C10: the all-success oracle with empty probe outputs yields
a success result. -/
theorem claim_C10_witness :
    ∃ out, deployToVPS envAllOk defaultPorts [] = Except.ok out ∧
      out.result.success = true := by
  obtain ⟨out, hok, hsucc, _⟩ :=
    claim_C10_success_independent_of_health envAllOk defaultPorts [] rfl rfl
  exact ⟨out, hok, hsucc⟩

/-- Claim C4: when the real secrets file already exists on the remote host,
no step of the deployment writes to it, so its content after the run is
exactly its content before the run. -/
theorem claim_C4_secrets_never_overwritten (env : DeployEnv) (ports : SafePorts)
    (fs0 : RemoteFS) (c : FileContent) (out : DeployOutcome)
    (henv : readFile fs0 envPath = some c)
    (hrun : deployToVPS env ports fs0 = Except.ok out) :
    readFile out.fs envPath = some c := by
  cases hc : env.connectErr with
  | some e =>
    simp [deployToVPS, hc] at hrun
  | none =>
    simp only [deployToVPS, hc] at hrun
    injection hrun with hout
    subst hout
    exact deploySteps_fs_env env ports fs0 c henv

/-- Witness for C4: deploying over a filesystem that already holds a real
secrets file leaves that file's content untouched. -/
theorem claim_C4_witness :
    readFile (deploySteps envAllOk defaultPorts fsWithEnv).fs envPath =
      some (FileContent.envReal "oldtokens") := by
  exact claim_C4_secrets_never_overwritten envAllOk defaultPorts fsWithEnv
    (FileContent.envReal "oldtokens") (deploySteps envAllOk defaultPorts fsWithEnv) rfl rfl

end LivingRental
